import Mathlib

/-!
Verification of `src/graphics/shaders.cpp` (SuperTuxKart shader registry).

The file shallowly embeds the registry lifecycle of `Shaders::loadShaders`,
the per-shader construction helpers (`UtilShader::AssignTextureUnit`,
`bypassUBO`, the shadow-variant constructors) and the uniform caching of
`BubbleShader`, `SkyboxShader`, `ColoredLine` and `PointLightShader`.
GPU handles are modelled as `Nat`, program entries of the registry as `Int`
(the C++ table is `int m_shaders[ES_COUNT]`, sentinel `-1`), and GL calls as
explicit traces of operations.
-/

namespace STKShaders

/-! ### Shader kinds

Modelled from the spec: the `ShaderType` enumeration lives in
`graphics/shaders.hpp`, which is not part of the excerpt; the spec only says
the registry is "a fixed-size table mapping a shader-kind enumerator to a
compiled-program handle".  We give each enumerator used by `shaders.cpp` an
index, in the order `loadShaders` assigns them, and let `ES_COUNT` be the
number of enumerators this file uses. -/

def ES_NORMAL_MAP : Nat := 0
def ES_NORMAL_MAP_LIGHTMAP : Nat := 1
def ES_SKYBOX : Nat := 2
def ES_SPLATTING : Nat := 3
def ES_WATER : Nat := 4
def ES_WATER_SURFACE : Nat := 5
def ES_SPHERE_MAP : Nat := 6
def ES_GRASS : Nat := 7
def ES_GRASS_REF : Nat := 8
def ES_BUBBLES : Nat := 9
def ES_MOTIONBLUR : Nat := 10
def ES_GAUSSIAN3H : Nat := 11
def ES_GAUSSIAN3V : Nat := 12
def ES_MIPVIZ : Nat := 13
def ES_COLORIZE : Nat := 14
def ES_OBJECTPASS : Nat := 15
def ES_OBJECT_UNLIT : Nat := 16
def ES_OBJECTPASS_REF : Nat := 17
def ES_OBJECTPASS_RIMLIT : Nat := 18
def ES_SUNLIGHT : Nat := 19
def ES_DISPLACE : Nat := 20
def ES_PASSFAR : Nat := 21
def ES_COUNT : Nat := 22

/-! ### Log messages

Modelled from the spec: `utils/log.hpp` is not part of the excerpt.  The spec
says diagnostics are "a structured log message naming the failing shader
kind" and distinguishes error logs, soft warnings and process-fatal
conditions, so the message vocabulary carries all three levels;
`Shaders::check` emits `Log::error` messages. -/
inductive LogMsg
  | error (kind : Nat)
  | warn (kind : Nat)
  | fatal (kind : Nat)
deriving DecidableEq

def LogMsg.isError : LogMsg → Bool
  | .error _ => true
  | _ => false

/-- Occurrence count of an element in a list (used to state "emitted exactly
once"). -/
def countOcc {α : Type} [DecidableEq α] (x : α) (l : List α) : Nat :=
  (l.filter (fun y => y = x)).length

/-- The GPU/driver environment seen by `loadShaders`: for each shader kind,
the value returned by the `gpu->addHighLevelShaderMaterialFromFiles` call
(the `glsl`/`glslmat`/`glsl_noinput` macros); `-1` is the failure
sentinel. -/
structure GLEnv where
  fresh : Nat → Int

/-- The registry state: the `int m_shaders[ES_COUNT]` table.  (The callback
table is orthogonal to the claims and omitted.) -/
structure ShadersState where
  m_shaders : Nat → Int

/-- The `Shaders::Shaders` constructor sets every entry to `-1` before the
first `loadShaders` call (lines 127-128). -/
def shadersCtorInit : ShadersState := ⟨fun _ => -1⟩

/-- The sequence of fresh-build assignments of `loadShaders`
(lines 297-345), in source order: each kind's table entry is overwritten
with this load's build result. -/
def buildPass (env : GLEnv) (m : Nat → Int) : Nat → Int :=
  let m := Function.update m ES_NORMAL_MAP (env.fresh ES_NORMAL_MAP)
  let m := Function.update m ES_NORMAL_MAP_LIGHTMAP (env.fresh ES_NORMAL_MAP_LIGHTMAP)
  let m := Function.update m ES_SKYBOX (env.fresh ES_SKYBOX)
  let m := Function.update m ES_SPLATTING (env.fresh ES_SPLATTING)
  let m := Function.update m ES_WATER (env.fresh ES_WATER)
  let m := Function.update m ES_WATER_SURFACE (env.fresh ES_WATER_SURFACE)
  let m := Function.update m ES_SPHERE_MAP (env.fresh ES_SPHERE_MAP)
  let m := Function.update m ES_GRASS (env.fresh ES_GRASS)
  let m := Function.update m ES_GRASS_REF (env.fresh ES_GRASS_REF)
  let m := Function.update m ES_BUBBLES (env.fresh ES_BUBBLES)
  let m := Function.update m ES_MOTIONBLUR (env.fresh ES_MOTIONBLUR)
  let m := Function.update m ES_GAUSSIAN3H (env.fresh ES_GAUSSIAN3H)
  let m := Function.update m ES_GAUSSIAN3V (env.fresh ES_GAUSSIAN3V)
  let m := Function.update m ES_MIPVIZ (env.fresh ES_MIPVIZ)
  let m := Function.update m ES_COLORIZE (env.fresh ES_COLORIZE)
  let m := Function.update m ES_OBJECTPASS (env.fresh ES_OBJECTPASS)
  let m := Function.update m ES_OBJECT_UNLIT (env.fresh ES_OBJECT_UNLIT)
  let m := Function.update m ES_OBJECTPASS_REF (env.fresh ES_OBJECTPASS_REF)
  let m := Function.update m ES_OBJECTPASS_RIMLIT (env.fresh ES_OBJECTPASS_RIMLIT)
  let m := Function.update m ES_SUNLIGHT (env.fresh ES_SUNLIGHT)
  let m := Function.update m ES_DISPLACE (env.fresh ES_DISPLACE)
  let m := Function.update m ES_PASSFAR (env.fresh ES_PASSFAR)
  m

/-- `Shaders::check` (lines 429-436): emit one error log naming the kind if
its entry is the sentinel, otherwise nothing. -/
def check (m : Nat → Int) (num : Nat) : List LogMsg :=
  if m num = -1 then [LogMsg.error num] else []

/-- The check loop of `loadShaders` (lines 347-356): every kind is checked
in index order, except that `ES_MIPVIZ` is skipped entirely
("It's an artist option, so not necessary to play"). -/
def checkLoop (m : Nat → Int) : List LogMsg :=
  (List.range ES_COUNT).flatMap (fun i => if i = ES_MIPVIZ then [] else check m i)

/-- One iteration of the fallback loop of `loadShaders` (lines 362-367):
`if (m_shaders[i] == -1) m_shaders[i] = saved_shaders[i]`. -/
def mergeStep (saved : Nat → Int) (m : Nat → Int) (i : Nat) : Nat → Int :=
  if m i = -1 then Function.update m i (saved i) else m

/-- The whole fallback loop over `0 ≤ i < ES_COUNT`. -/
def mergeLoop (saved m : Nat → Int) : Nat → Int :=
  (List.range ES_COUNT).foldl (mergeStep saved) m

/-- `Shaders::loadShaders` (lines 282-410), restricted to the registry
table and its diagnostics: save the previous table, overwrite every entry
with the fresh build result, run the check loop (log-only), then restore
the saved entry wherever the fresh build failed.  Returns the new state and
the emitted log messages. -/
def loadShaders (env : GLEnv) (s : ShadersState) : ShadersState × List LogMsg :=
  let saved := s.m_shaders
  let built := buildPass env s.m_shaders
  let logs := checkLoop built
  let merged := mergeLoop saved built
  (⟨merged⟩, logs)

/-- `Shaders::getShader` (lines 422-427): `assert(num < ES_COUNT)` then
return the stored entry cast to the material-type handle (the cast is
modelled as the identity on the stored `Int`).  The assert is modelled as a
guard returning `none` outside the asserted range; the method is `const`,
so the state is returned unchanged. -/
def getShader (s : ShadersState) (num : Nat) : Option Int × ShadersState :=
  (if num < ES_COUNT then some (s.m_shaders num) else none, s)

/-! ### Uniform locations and GL write traces

OpenGL scopes uniform locations per program: a location obtained by
`glGetUniformLocation(Program, name)` is only meaningful for that program.
A location is therefore modelled as the pair of the owning program handle
and the uniform name. -/

structure Loc where
  program : Nat
  name : String
deriving DecidableEq

/-- `getUniformLocation` (line 106): resolve a uniform name in a program. -/
def getUniformLocation (program : Nat) (name : String) : Loc :=
  ⟨program, name⟩

/-- Values pushed through `glUniform*` calls.  Floating-point and matrix
payloads are opaque handles (`Nat` codes); the claims are about which
locations receive which arguments, never about float arithmetic. -/
inductive UniValue
  | int (v : Int)
  | flt (v : Nat)
  | mat4 (v : Nat)
  | vec2 (x y : Nat)
  | ivec4 (a b c d : Int)
deriving DecidableEq

/-- A single `glUniform*` call: a value sent to a location. -/
structure UniWrite where
  loc : Loc
  val : UniValue
deriving DecidableEq

/-- GL operations issued by `AssignTextureUnit`: program binds and uniform
writes. -/
inductive GLOp
  | useProgram (p : Nat)
  | write (w : UniWrite)
deriving DecidableEq

/-- The program bound after executing a trace, starting from bound program
`b`. -/
def boundAfter (b : Nat) : List GLOp → Nat
  | [] => b
  | .useProgram p :: rest => boundAfter p rest
  | .write _ :: rest => boundAfter b rest

/-- Each operation of a trace annotated with the program bound when it
executes (a `useProgram` is annotated with the program it binds). -/
def annotateBound (b : Nat) : List GLOp → List (Nat × GLOp)
  | [] => []
  | .useProgram p :: rest => (p, .useProgram p) :: annotateBound p rest
  | .write w :: rest => (b, .write w) :: annotateBound b rest

/-! ### `UtilShader::AssignTextureUnit` (lines 487-556) -/

/-- `UtilShader::TexUnit`: a fixed texture-unit index paired with a sampler
uniform name. -/
structure TexUnit where
  index : Nat
  uniform : String
deriving DecidableEq

/-- The write issued for one texture unit:
`glUniform1i(glGetUniformLocation(Program, u.m_uniform), u.m_index)`. -/
def texUnitWrite (program : Nat) (u : TexUnit) : GLOp :=
  .write ⟨getUniformLocation program u.uniform, .int u.index⟩

/-- `AssignTextureUnit_Sub` (lines 548-556): write each remaining pair, no
program binds. -/
def AssignTextureUnit_Sub (program : Nat) : List TexUnit → List GLOp
  | [] => []
  | u :: rest => texUnitWrite program u :: AssignTextureUnit_Sub program rest

/-- `AssignTextureUnit` (lines 529-546): bind the program, write the first
pair, recurse through the rest, unbind (`glUseProgram(0)`).  The
single-pair overload is the `rest = []` case. -/
def AssignTextureUnit (program : Nat) (u : TexUnit) (rest : List TexUnit) : List GLOp :=
  .useProgram program ::
    (texUnitWrite program u :: AssignTextureUnit_Sub program rest) ++ [.useProgram 0]

/-! ### `bypassUBO` and the setUniforms paths that use it -/

/-- The driver state consulted by `setUniforms`: whether the
uniform-buffer-object workaround is needed, and the camera matrices and
screen size that `bypassUBO` reads from `irr_driver` (opaque handles). -/
structure Driver where
  needUBOWorkaround : Bool
  viewMatrix : Nat
  projMatrix : Nat
  invViewMatrix : Nat
  invProjMatrix : Nat
  screenX : Nat
  screenY : Nat

/-- The five uniform names `bypassUBO` pushes individually. -/
def cameraUniformNames : List String :=
  ["ViewMatrix", "ProjectionMatrix", "InverseViewMatrix",
   "InverseProjectionMatrix", "screen"]

/-- `bypassUBO` (lines 438-450): push the camera matrices and screen size
to the given program through individual uniform writes. -/
def bypassUBO (d : Driver) (program : Nat) : List UniWrite :=
  [⟨getUniformLocation program ("ViewMatrix"), .mat4 d.viewMatrix⟩,
   ⟨getUniformLocation program ("ProjectionMatrix"), .mat4 d.projMatrix⟩,
   ⟨getUniformLocation program ("InverseViewMatrix"), .mat4 d.invViewMatrix⟩,
   ⟨getUniformLocation program ("InverseProjectionMatrix"), .mat4 d.invProjMatrix⟩,
   ⟨getUniformLocation program ("screen"), .vec2 d.screenX d.screenY⟩]

/-- Opaque handle for `core::IdentityMatrix`. -/
def IdentityMatrix : Nat := 0

namespace UtilShader

/-- The static members of `UtilShader::ColoredLine` that `setUniforms`
uses. -/
structure ColoredLineState where
  Program : Nat
  uniform_color : Loc

/-- `ColoredLine::init` (lines 459-477), restricted to the members
`setUniforms` reads: cache the location of `"color"` (line 472). -/
def ColoredLine.init (program : Nat) : ColoredLineState :=
  ⟨program, getUniformLocation program ("color")⟩

/-- `ColoredLine::setUniforms` (lines 479-485): bypass the UBO when the
driver needs the workaround, then write the color and the identity model
matrix. -/
def ColoredLine.setUniforms (d : Driver) (st : ColoredLineState)
    (r g b a : Int) : List UniWrite :=
  (if d.needUBOWorkaround then bypassUBO d st.Program else []) ++
    [⟨st.uniform_color, .ivec4 r g b a⟩,
     ⟨getUniformLocation st.Program ("ModelMatrix"), .mat4 IdentityMatrix⟩]

end UtilShader

namespace MeshShader

/-- The static members of `MeshShader::SkyboxShader` that `setUniforms`
uses. -/
structure SkyboxState where
  Program : Nat
  uniform_MM : Loc
  uniform_tex : Loc

/-- `SkyboxShader::init` (lines 1203-1222), restricted to the members
`setUniforms` reads (lines 1209-1210). -/
def SkyboxShader.init (program : Nat) : SkyboxState :=
  ⟨program, getUniformLocation program ("ModelMatrix"),
   getUniformLocation program ("tex")⟩

/-- `SkyboxShader::setUniforms` (lines 1224-1230). -/
def SkyboxShader.setUniforms (d : Driver) (st : SkyboxState)
    (ModelMatrix : Nat) (TU_tex : Int) : List UniWrite :=
  (if d.needUBOWorkaround then bypassUBO d st.Program else []) ++
    [⟨st.uniform_MM, .mat4 ModelMatrix⟩, ⟨st.uniform_tex, .int TU_tex⟩]

/-- The static members of `MeshShader::BubbleShader` that `setUniforms`
uses. -/
structure BubbleState where
  Program : Nat
  uniform_MVP : Loc
  uniform_tex : Loc
  uniform_time : Loc
  uniform_transparency : Loc

/-- `BubbleShader::init` (lines 908-917): resolve and cache the four
declared uniform names, in declaration order. -/
def BubbleShader.init (program : Nat) : BubbleState :=
  ⟨program,
   getUniformLocation program ("ModelViewProjectionMatrix"),
   getUniformLocation program ("tex"),
   getUniformLocation program ("time"),
   getUniformLocation program ("transparency")⟩

/-- `BubbleShader::setUniforms` (lines 918-924): push the four arguments to
the four cached locations, in order. -/
def BubbleShader.setUniforms (st : BubbleState)
    (ModelViewProjectionMatrix : Nat) (TU_tex : Int)
    (time : Nat) (transparency : Nat) : List UniWrite :=
  [⟨st.uniform_MVP, .mat4 ModelViewProjectionMatrix⟩,
   ⟨st.uniform_tex, .int TU_tex⟩,
   ⟨st.uniform_time, .flt time⟩,
   ⟨st.uniform_transparency, .flt transparency⟩]

end MeshShader

namespace LightShader

/-- The static members of `LightShader::PointLightShader` that
`setUniforms` uses. -/
structure PointLightState where
  Program : Nat
  uniform_ntex : Loc
  uniform_dtex : Loc
  uniform_spec : Loc

/-- `PointLightShader::init` (lines 1293-1329), restricted to the members
`setUniforms` reads (lines 1305-1307). -/
def PointLightShader.init (program : Nat) : PointLightState :=
  ⟨program, getUniformLocation program ("ntex"),
   getUniformLocation program ("dtex"),
   getUniformLocation program ("spec")⟩

/-- `PointLightShader::setUniforms` (lines 1331-1339): bypass the UBO when
needed, then write `spec = 200`, `ntex`, `dtex`. -/
def PointLightShader.setUniforms (d : Driver) (st : PointLightState)
    (TU_ntex TU_dtex : Int) : List UniWrite :=
  (if d.needUBOWorkaround then bypassUBO d st.Program else []) ++
    [⟨st.uniform_spec, .flt 200⟩,
     ⟨st.uniform_ntex, .int TU_ntex⟩,
     ⟨st.uniform_dtex, .int TU_dtex⟩]

end LightShader

/-! ### Shadow-variant constructors (lines 982-1163)

Each constructor first queries `irr_driver->getGLSLVersion()`; below 150 it
returns immediately without calling `LoadProgram`.  Otherwise it builds the
program with a geometry stage exactly when
`irr_driver->hasVSLayerExtension()` is false.  The build is modelled as the
ordered stage list handed to `LoadProgram`, `none` when no build is
attempted. -/

/-- Hardware capabilities queried from `irr_driver`. -/
structure Caps where
  glslVersion : Nat
  hasVSLayerExtension : Bool

inductive StageKind
  | vertex
  | geometry
  | fragment
deriving DecidableEq

/-- One (stage-kind, source-path) pair of a `LoadProgram` call. -/
structure Stage where
  kind : StageKind
  path : String
deriving DecidableEq

def hasGeometryStage (stages : List Stage) : Bool :=
  stages.any (fun s => s.kind = StageKind.geometry)

namespace MeshShader

/-- `ShadowShader::ShadowShader` (lines 982-1003). -/
def ShadowShader.construct (c : Caps) : Option (List Stage) :=
  if c.glslVersion < 150 then none
  else if c.hasVSLayerExtension then
    some [⟨.vertex, "shadow.vert"⟩, ⟨.fragment, "white.frag"⟩]
  else
    some [⟨.vertex, "shadow.vert"⟩, ⟨.geometry, "shadow.geom"⟩,
          ⟨.fragment, "white.frag"⟩]

/-- `InstancedShadowShader::InstancedShadowShader` (lines 1035-1057). -/
def InstancedShadowShader.construct (c : Caps) : Option (List Stage) :=
  if c.glslVersion < 150 then none
  else if c.hasVSLayerExtension then
    some [⟨.vertex, "utils/getworldmatrix.vert"⟩,
          ⟨.vertex, "instanciedshadow.vert"⟩, ⟨.fragment, "white.frag"⟩]
  else
    some [⟨.vertex, "utils/getworldmatrix.vert"⟩,
          ⟨.vertex, "instanciedshadow.vert"⟩, ⟨.geometry, "shadow.geom"⟩,
          ⟨.fragment, "white.frag"⟩]

/-- `RefShadowShader::RefShadowShader` (lines 1059-1083). -/
def RefShadowShader.construct (c : Caps) : Option (List Stage) :=
  if c.glslVersion < 150 then none
  else if c.hasVSLayerExtension then
    some [⟨.vertex, "shadow.vert"⟩, ⟨.fragment, "object_unlit.frag"⟩]
  else
    some [⟨.vertex, "shadow.vert"⟩, ⟨.geometry, "shadow.geom"⟩,
          ⟨.fragment, "object_unlit.frag"⟩]

/-- `InstancedRefShadowShader::InstancedRefShadowShader`
(lines 1085-1109). -/
def InstancedRefShadowShader.construct (c : Caps) : Option (List Stage) :=
  if c.glslVersion < 150 then none
  else if c.hasVSLayerExtension then
    some [⟨.vertex, "utils/getworldmatrix.vert"⟩,
          ⟨.vertex, "instanciedshadow.vert"⟩,
          ⟨.fragment, "object_unlit.frag"⟩]
  else
    some [⟨.vertex, "utils/getworldmatrix.vert"⟩,
          ⟨.vertex, "instanciedshadow.vert"⟩, ⟨.geometry, "shadow.geom"⟩,
          ⟨.fragment, "object_unlit.frag"⟩]

/-- `GrassShadowShader::GrassShadowShader` (lines 1111-1135). -/
def GrassShadowShader.construct (c : Caps) : Option (List Stage) :=
  if c.glslVersion < 150 then none
  else if c.hasVSLayerExtension then
    some [⟨.vertex, "shadow_grass.vert"⟩, ⟨.fragment, "object_unlit.frag"⟩]
  else
    some [⟨.vertex, "shadow_grass.vert"⟩, ⟨.geometry, "shadow.geom"⟩,
          ⟨.fragment, "object_unlit.frag"⟩]

/-- `InstancedGrassShadowShader::InstancedGrassShadowShader`
(lines 1137-1163). -/
def InstancedGrassShadowShader.construct (c : Caps) : Option (List Stage) :=
  if c.glslVersion < 150 then none
  else if c.hasVSLayerExtension then
    some [⟨.vertex, "utils/getworldmatrix.vert"⟩,
          ⟨.vertex, "instanciedgrassshadow.vert"⟩,
          ⟨.fragment, "object_unlit.frag"⟩]
  else
    some [⟨.vertex, "utils/getworldmatrix.vert"⟩,
          ⟨.vertex, "instanciedgrassshadow.vert"⟩,
          ⟨.geometry, "shadow.geom"⟩, ⟨.fragment, "object_unlit.frag"⟩]

end MeshShader

/-! ### Uniform-block binding sites

Every call to `glGetUniformBlockIndex` in `shaders.cpp` queries the block
`"MatrixesData"` and is immediately followed by
`glUniformBlockBinding(Program, index, point)`.  The catalogue lists one
entry per call site, in source order (39 sites). -/

structure UBOBindingSite where
  className : String
  block : String
  point : Nat
deriving DecidableEq

def matrixesDataBindingSites : List UBOBindingSite :=
  [⟨"UtilShader::ColoredLine", "MatrixesData", 0⟩,
   ⟨"MeshShader::ObjectPass1Shader", "MatrixesData", 0⟩,
   ⟨"MeshShader::ObjectRefPass1Shader", "MatrixesData", 0⟩,
   ⟨"MeshShader::NormalMapShader", "MatrixesData", 0⟩,
   ⟨"MeshShader::InstancedObjectPass1Shader", "MatrixesData", 0⟩,
   ⟨"MeshShader::InstancedObjectRefPass1Shader", "MatrixesData", 0⟩,
   ⟨"MeshShader::InstancedGrassPass1Shader", "MatrixesData", 0⟩,
   ⟨"MeshShader::ObjectPass2Shader", "MatrixesData", 0⟩,
   ⟨"MeshShader::InstancedObjectPass2Shader", "MatrixesData", 0⟩,
   ⟨"MeshShader::InstancedObjectRefPass2Shader", "MatrixesData", 0⟩,
   ⟨"MeshShader::DetailledObjectPass2Shader", "MatrixesData", 0⟩,
   ⟨"MeshShader::ObjectUnlitShader", "MatrixesData", 0⟩,
   ⟨"MeshShader::ObjectRefPass2Shader", "MatrixesData", 0⟩,
   ⟨"MeshShader::InstancedGrassPass2Shader", "MatrixesData", 0⟩,
   ⟨"MeshShader::SphereMapShader", "MatrixesData", 0⟩,
   ⟨"MeshShader::TransparentShader", "MatrixesData", 0⟩,
   ⟨"MeshShader::TransparentFogShader", "MatrixesData", 0⟩,
   ⟨"MeshShader::BillboardShader", "MatrixesData", 0⟩,
   ⟨"MeshShader::ColorizeShader", "MatrixesData", 0⟩,
   ⟨"MeshShader::ShadowShader", "MatrixesData", 0⟩,
   ⟨"MeshShader::RSMShader", "MatrixesData", 0⟩,
   ⟨"MeshShader::SplattingRSMShader", "MatrixesData", 0⟩,
   ⟨"MeshShader::InstancedShadowShader", "MatrixesData", 0⟩,
   ⟨"MeshShader::RefShadowShader", "MatrixesData", 0⟩,
   ⟨"MeshShader::InstancedRefShadowShader", "MatrixesData", 0⟩,
   ⟨"MeshShader::GrassShadowShader", "MatrixesData", 0⟩,
   ⟨"MeshShader::InstancedGrassShadowShader", "MatrixesData", 0⟩,
   ⟨"MeshShader::DisplaceMaskShader", "MatrixesData", 0⟩,
   ⟨"MeshShader::DisplaceShader", "MatrixesData", 0⟩,
   ⟨"MeshShader::SkyboxShader", "MatrixesData", 0⟩,
   ⟨"MeshShader::NormalVisualizer", "MatrixesData", 0⟩,
   ⟨"MeshShader::ViewFrustrumShader", "MatrixesData", 0⟩,
   ⟨"FullScreenShader::DepthOfFieldShader", "MatrixesData", 0⟩,
   ⟨"FullScreenShader::SunLightShader", "MatrixesData", 0⟩,
   ⟨"FullScreenShader::ShadowedSunLightShader", "MatrixesData", 0⟩,
   ⟨"FullScreenShader::RHDebug", "MatrixesData", 0⟩,
   ⟨"FullScreenShader::GlobalIlluminationReconstructionShader", "MatrixesData", 0⟩,
   ⟨"FullScreenShader::SSAOShader", "MatrixesData", 0⟩,
   ⟨"FullScreenShader::FogShader", "MatrixesData", 0⟩]

/-- The binding point of the shared view/projection-matrix uniform buffer:
`initShadowVPMUBO` (lines 272-280) creates
`SharedObject::ViewProjectionMatrixesUBO`, and the frame driver binds it to
slot 0, the slot every catalogue entry targets. -/
def matrixesDataBindingPoint : Nat := 0

/-! ### Helper lemmas -/

theorem countOcc_nil {α : Type} [DecidableEq α] (x : α) : countOcc x [] = 0 := rfl

theorem countOcc_cons {α : Type} [DecidableEq α] (x a : α) (l : List α) :
    countOcc x (a :: l) = (if a = x then 1 else 0) + countOcc x l := by
  by_cases h : a = x <;> simp [countOcc, List.filter_cons, h, Nat.add_comm]

theorem countOcc_append {α : Type} [DecidableEq α] (x : α) (l₁ l₂ : List α) :
    countOcc x (l₁ ++ l₂) = countOcc x l₁ + countOcc x l₂ := by
  simp [countOcc, List.filter_append]

theorem countOcc_eq_zero {α : Type} [DecidableEq α] {x : α} {l : List α}
    (h : ∀ y ∈ l, y ≠ x) : countOcc x l = 0 := by
  induction l with
  | nil => rfl
  | cons a t ih =>
      rw [countOcc_cons]
      have ha : a ≠ x := h a (by simp)
      simp only [ha, if_false, Nat.zero_add]
      exact ih (fun y hy => h y (by simp [hy]))

theorem buildPass_apply (env : GLEnv) (m : Nat → Int) (k : Nat)
    (hk : k < ES_COUNT) : buildPass env m k = env.fresh k := by
  simp only [ES_COUNT] at hk
  interval_cases k <;>
    simp [buildPass, Function.update, ES_NORMAL_MAP, ES_NORMAL_MAP_LIGHTMAP,
      ES_SKYBOX, ES_SPLATTING, ES_WATER, ES_WATER_SURFACE, ES_SPHERE_MAP,
      ES_GRASS, ES_GRASS_REF, ES_BUBBLES, ES_MOTIONBLUR, ES_GAUSSIAN3H,
      ES_GAUSSIAN3V, ES_MIPVIZ, ES_COLORIZE, ES_OBJECTPASS, ES_OBJECT_UNLIT,
      ES_OBJECTPASS_REF, ES_OBJECTPASS_RIMLIT, ES_SUNLIGHT, ES_DISPLACE,
      ES_PASSFAR]

theorem mergeStep_apply (saved m : Nat → Int) (i j : Nat) :
    mergeStep saved m i j = if j = i ∧ m i = -1 then saved i else m j := by
  unfold mergeStep
  by_cases h : m i = -1
  · by_cases hj : j = i
    · subst hj; simp [Function.update, h]
    · simp [Function.update, h, hj]
  · by_cases hj : j = i
    · subst hj; simp [h]
    · simp [h, hj]

theorem foldl_mergeStep_apply (saved : Nat → Int) :
    ∀ (L : List Nat), L.Nodup → ∀ (m : Nat → Int) (j : Nat),
      (L.foldl (mergeStep saved) m) j
        = if j ∈ L ∧ m j = -1 then saved j else m j := by
  intro L
  induction L with
  | nil => intro _ m j; simp
  | cons i t ih =>
      intro hnd m j
      have hit : i ∉ t := (List.nodup_cons.mp hnd).1
      have htnd : t.Nodup := (List.nodup_cons.mp hnd).2
      have step := mergeStep_apply saved m i
      rw [List.foldl_cons, ih htnd (mergeStep saved m i) j, step j]
      by_cases hj : j = i
      · subst hj
        by_cases hm : m j = -1 <;> simp [hm, hit]
      · by_cases hjt : j ∈ t <;> by_cases hm : m j = -1 <;>
          simp [hj, hjt, hm]

theorem mergeLoop_apply (saved m : Nat → Int) (k : Nat) (hk : k < ES_COUNT) :
    mergeLoop saved m k = if m k = -1 then saved k else m k := by
  unfold mergeLoop
  rw [foldl_mergeStep_apply saved (List.range ES_COUNT) (List.nodup_range ES_COUNT) m k]
  simp [List.mem_range, hk]

theorem countOcc_flatMap_error (f : Nat → List LogMsg) :
    ∀ (L : List Nat), L.Nodup →
      (∀ i, ∀ x ∈ f i, x = LogMsg.error i) → ∀ (k : Nat),
      countOcc (LogMsg.error k) (L.flatMap f)
        = if k ∈ L then countOcc (LogMsg.error k) (f k) else 0 := by
  intro L
  induction L with
  | nil => intro _ _ k; simp [countOcc_nil]
  | cons i t ih =>
      intro hnd hf k
      have hit : i ∉ t := (List.nodup_cons.mp hnd).1
      have htnd : t.Nodup := (List.nodup_cons.mp hnd).2
      rw [List.flatMap_cons, countOcc_append, ih htnd hf k]
      by_cases hk : k = i
      · subst hk
        simp only [List.mem_cons, true_or, if_true, hit, if_false,
          Nat.add_zero]
      · have hzero : countOcc (LogMsg.error k) (f i) = 0 := by
          refine countOcc_eq_zero (fun y hy => ?_)
          rw [hf i y hy]
          intro hcontra
          exact hk (by injection hcontra with h; exact h.symm)
        rw [hzero]
        simp [List.mem_cons, hk, Nat.zero_add]

theorem check_elems (m : Nat → Int) (i : Nat) :
    ∀ x ∈ check m i, x = LogMsg.error i := by
  intro x hx
  unfold check at hx
  by_cases h : m i = -1 <;> simp [h] at hx
  exact hx

theorem checkLoop_count (m : Nat → Int) (k : Nat) (hk : k < ES_COUNT)
    (hmip : k ≠ ES_MIPVIZ) :
    countOcc (LogMsg.error k) (checkLoop m)
      = if m k = -1 then 1 else 0 := by
  unfold checkLoop
  rw [countOcc_flatMap_error (fun i => if i = ES_MIPVIZ then [] else check m i)
    (List.range ES_COUNT) (List.nodup_range ES_COUNT) ?_ k]
  · simp only [List.mem_range, hk, if_true, hmip, if_false]
    by_cases h : m k = -1 <;> simp [check, h, countOcc_cons, countOcc_nil]
  · intro i x hx
    by_cases hi : i = ES_MIPVIZ
    · simp [hi] at hx
    · simp only [hi, if_false] at hx
      exact check_elems m i x hx

theorem checkLoop_mem (m : Nat → Int) (x : LogMsg) (hx : x ∈ checkLoop m) :
    ∃ i, i < ES_COUNT ∧ i ≠ ES_MIPVIZ ∧ m i = -1 ∧ x = LogMsg.error i := by
  unfold checkLoop at hx
  rw [List.mem_flatMap] at hx
  obtain ⟨i, hi, hxi⟩ := hx
  rw [List.mem_range] at hi
  by_cases hmip : i = ES_MIPVIZ
  · simp [hmip] at hxi
  · simp only [hmip, if_false] at hxi
    exact ⟨i, hi, hmip, by
      unfold check at hxi
      by_cases h : m i = -1 <;> simp [h] at hxi
      exact ⟨h, hxi⟩⟩

theorem loadShaders_state (env : GLEnv) (s : ShadersState) (k : Nat)
    (hk : k < ES_COUNT) :
    (loadShaders env s).1.m_shaders k
      = if env.fresh k = -1 then s.m_shaders k else env.fresh k := by
  show mergeLoop s.m_shaders (buildPass env s.m_shaders) k = _
  rw [mergeLoop_apply s.m_shaders (buildPass env s.m_shaders) k hk,
    buildPass_apply env s.m_shaders k hk]

theorem loadShaders_logs_count (env : GLEnv) (s : ShadersState) (k : Nat)
    (hk : k < ES_COUNT) (hmip : k ≠ ES_MIPVIZ) :
    countOcc (LogMsg.error k) (loadShaders env s).2
      = if env.fresh k = -1 then 1 else 0 := by
  show countOcc (LogMsg.error k) (checkLoop (buildPass env s.m_shaders)) = _
  rw [checkLoop_count (buildPass env s.m_shaders) k hk hmip,
    buildPass_apply env s.m_shaders k hk]

/-! ### Claim theorems -/

/-- C1: after `Shaders::loadShaders` completes, the registry's entry for
every shader kind equals the freshly built program when the fresh build did
not return the sentinel `-1`, and otherwise equals the entry that was
active before the call; in particular a kind whose fresh build fails never
regresses from a previously valid program to the sentinel. -/
theorem C1_loadShaders_merge_rule (env : GLEnv) (s : ShadersState) (k : Nat)
    (hk : k < ES_COUNT) :
    ((loadShaders env s).1.m_shaders k
        = if env.fresh k = -1 then s.m_shaders k else env.fresh k)
    ∧ (env.fresh k = -1 → s.m_shaders k ≠ -1 →
        (loadShaders env s).1.m_shaders k ≠ -1) := by
  refine ⟨loadShaders_state env s k hk, fun hfail hprev => ?_⟩
  rw [loadShaders_state env s k hk, if_pos hfail]
  exact hprev

/-- Witness for C1 at a concrete reload: kind `ES_SKYBOX` fails afresh
(`-1`) but had program `5`, so the entry stays `5`. -/
theorem C1_loadShaders_merge_rule_witness :
    (loadShaders ⟨fun _ => -1⟩ ⟨fun _ => 5⟩).1.m_shaders ES_SKYBOX = 5 := by
  have h := (C1_loadShaders_merge_rule ⟨fun _ => -1⟩ ⟨fun _ => 5⟩ ES_SKYBOX
    (by decide)).1
  simpa using h

/-- C2 counterexample: the required kind `ES_NORMAL_MAP` fails on first
load (prior table all `-1`), yet `loadShaders` completes: it returns the
fully merged table (later kinds are processed normally), emits exactly the
one error-level message for the failed kind and no fatal-level message at
all.  Moreover the emitted diagnostics are identical to those of a reload
in which the same kind fails but a previously valid program exists, so no
observable distinguishes the "startup-fatal" case from the logged-only
case. -/
theorem C2_first_load_failure_counterexample :
    (loadShaders ⟨fun i => if i = 0 then -1 else 7⟩ shadersCtorInit).2
        = [LogMsg.error ES_NORMAL_MAP]
    ∧ (loadShaders ⟨fun i => if i = 0 then -1 else 7⟩ shadersCtorInit).1.m_shaders
        ES_NORMAL_MAP = -1
    ∧ (loadShaders ⟨fun i => if i = 0 then -1 else 7⟩ shadersCtorInit).1.m_shaders
        ES_PASSFAR = 7
    ∧ (loadShaders ⟨fun i => if i = 0 then -1 else 7⟩ shadersCtorInit).2
        = (loadShaders ⟨fun i => if i = 0 then -1 else 7⟩ ⟨fun _ => 9⟩).2
    ∧ countOcc (LogMsg.fatal ES_NORMAL_MAP)
        (loadShaders ⟨fun i => if i = 0 then -1 else 7⟩ shadersCtorInit).2 = 0 := by
  refine ⟨by decide, by decide, by decide, by decide, by decide⟩

/-- C2 (amended): every build failure, including a required kind failing on
first load with no prior program to fall back to, is surfaced only through
error-level log messages; `loadShaders` always completes, never emits a
fatal-level message, and the failed kind's entry simply remains the
sentinel `-1`. -/
theorem C2_failures_logged_only (env : GLEnv) (s : ShadersState) (k : Nat)
    (hk : k < ES_COUNT) (hmip : k ≠ ES_MIPVIZ)
    (hfail : env.fresh k = -1) (hfirst : s.m_shaders k = -1) :
    (∀ x ∈ (loadShaders env s).2, x.isError = true)
    ∧ (loadShaders env s).1.m_shaders k = -1
    ∧ countOcc (LogMsg.error k) (loadShaders env s).2 = 1 := by
  refine ⟨fun x hx => ?_, ?_, ?_⟩
  · obtain ⟨i, _, _, _, hxi⟩ :=
      checkLoop_mem (buildPass env s.m_shaders) x hx
    rw [hxi]; rfl
  · rw [loadShaders_state env s k hk, if_pos hfail]; exact hfirst
  · rw [loadShaders_logs_count env s k hk hmip, if_pos hfail]

/-- Witness for C2 (amended) at the concrete first-load failure. -/
theorem C2_failures_logged_only_witness :
    (loadShaders ⟨fun _ => -1⟩ shadersCtorInit).1.m_shaders ES_WATER = -1
    ∧ countOcc (LogMsg.error ES_WATER)
        (loadShaders ⟨fun _ => -1⟩ shadersCtorInit).2 = 1 := by
  have h := C2_failures_logged_only ⟨fun _ => -1⟩ shadersCtorInit ES_WATER
    (by decide) (by decide) rfl rfl
  exact ⟨h.2.1, h.2.2⟩

/-- C7: for every shader kind other than the artist-only `ES_MIPVIZ`, if
its entry still holds the sentinel `-1` after the build pass, `loadShaders`
emits exactly one error log message naming that kind, and emits none for
kinds whose build succeeded. -/
theorem C7_one_error_log_per_failed_kind (env : GLEnv) (s : ShadersState)
    (k : Nat) (hk : k < ES_COUNT) (hmip : k ≠ ES_MIPVIZ) :
    countOcc (LogMsg.error k) (loadShaders env s).2
      = if env.fresh k = -1 then 1 else 0 :=
  loadShaders_logs_count env s k hk hmip

/-- Witness for C7: with every fresh build failing, the kind
`ES_GRASS` is named exactly once; with every build succeeding, it is
never named. -/
theorem C7_one_error_log_per_failed_kind_witness :
    countOcc (LogMsg.error ES_GRASS)
        (loadShaders ⟨fun _ => -1⟩ shadersCtorInit).2 = 1
    ∧ countOcc (LogMsg.error ES_GRASS)
        (loadShaders ⟨fun _ => 4⟩ shadersCtorInit).2 = 0 := by
  constructor
  · have h := C7_one_error_log_per_failed_kind ⟨fun _ => -1⟩ shadersCtorInit
      ES_GRASS (by decide) (by decide)
    simpa using h
  · have h := C7_one_error_log_per_failed_kind ⟨fun _ => 4⟩ shadersCtorInit
      ES_GRASS (by decide) (by decide)
    simpa using h

/-- C8 counterexample: with every fresh build failing (so in particular the
artist-only `ES_MIPVIZ` entry is the sentinel after the build pass), the
emitted diagnostics contain no message naming `ES_MIPVIZ` at any level —
the check loop skips the kind entirely, so no soft warning is emitted. -/
theorem C8_no_warning_counterexample :
    (buildPass ⟨fun _ => -1⟩ shadersCtorInit.m_shaders) ES_MIPVIZ = -1
    ∧ countOcc (LogMsg.warn ES_MIPVIZ)
        (loadShaders ⟨fun _ => -1⟩ shadersCtorInit).2 = 0
    ∧ countOcc (LogMsg.error ES_MIPVIZ)
        (loadShaders ⟨fun _ => -1⟩ shadersCtorInit).2 = 0
    ∧ countOcc (LogMsg.fatal ES_MIPVIZ)
        (loadShaders ⟨fun _ => -1⟩ shadersCtorInit).2 = 0 := by
  refine ⟨by decide, by decide, by decide, by decide⟩

/-- C8 (amended): if the artist-only `ES_MIPVIZ` kind fails to build,
loading continues to completion without a hard stop — the fallback merge
still runs for every kind — but no log message of any level is emitted for
that kind: the check loop skips it silently. -/
theorem C8_mipviz_failure_tolerated_silently (env : GLEnv) (s : ShadersState)
    (hfail : env.fresh ES_MIPVIZ = -1) :
    (loadShaders env s).1.m_shaders ES_MIPVIZ = s.m_shaders ES_MIPVIZ
    ∧ (∀ x ∈ (loadShaders env s).2, ∃ i, i ≠ ES_MIPVIZ ∧ x = LogMsg.error i)
    ∧ (∀ k, k < ES_COUNT → env.fresh k ≠ -1 →
        (loadShaders env s).1.m_shaders k = env.fresh k) := by
  refine ⟨?_, fun x hx => ?_, fun k hk hok => ?_⟩
  · rw [loadShaders_state env s ES_MIPVIZ (by decide), if_pos hfail]
  · obtain ⟨i, _, hmip, _, hxi⟩ :=
      checkLoop_mem (buildPass env s.m_shaders) x hx
    exact ⟨i, hmip, hxi⟩
  · rw [loadShaders_state env s k hk, if_neg hok]

/-- Witness for C8 (amended) at a concrete failing MIPVIZ build. -/
theorem C8_mipviz_failure_tolerated_silently_witness :
    (loadShaders ⟨fun i => if i = ES_MIPVIZ then -1 else 6⟩
        shadersCtorInit).1.m_shaders ES_MIPVIZ = -1
    ∧ (loadShaders ⟨fun i => if i = ES_MIPVIZ then -1 else 6⟩
        shadersCtorInit).1.m_shaders ES_SUNLIGHT = 6 := by
  have h := C8_mipviz_failure_tolerated_silently
    ⟨fun i => if i = ES_MIPVIZ then -1 else 6⟩ shadersCtorInit (by decide)
  refine ⟨by rw [h.1]; rfl, by
    have h2 := h.2.2 ES_SUNLIGHT (by decide) (by decide)
    simpa using h2⟩

/-- C10: `Shaders::getShader` asserts its argument is strictly below
`ES_COUNT`, and under that precondition returns exactly the stored program
entry for that kind (cast to the material-type handle) without modifying
any registry state. -/
theorem C10_getShader_spec (s : ShadersState) (num : Nat)
    (h : num < ES_COUNT) :
    getShader s num = (some (s.m_shaders num), s) := by
  simp [getShader, h]

/-- Witness for C10 at a concrete registry and kind. -/
theorem C10_getShader_spec_witness :
    getShader ⟨fun _ => 3⟩ ES_WATER = (some 3, ⟨fun _ => 3⟩) := by
  have h := C10_getShader_spec ⟨fun _ => 3⟩ ES_WATER (by decide)
  simpa using h

/-! ### `AssignTextureUnit` lemmas -/

theorem AssignTextureUnit_Sub_eq_map (program : Nat) (l : List TexUnit) :
    AssignTextureUnit_Sub program l = l.map (texUnitWrite program) := by
  induction l with
  | nil => rfl
  | cons u t ih => simp [AssignTextureUnit_Sub, ih]

theorem texUnitWrite_inj_name {program : Nat} {a b : TexUnit}
    (h : a.uniform ≠ b.uniform) :
    texUnitWrite program a ≠ texUnitWrite program b := by
  intro hc
  apply h
  have := congrArg (fun op => match op with
    | GLOp.write w => w.loc.name
    | GLOp.useProgram _ => "") hc
  simpa [texUnitWrite, getUniformLocation] using this

theorem countOcc_texUnitWrite_map (program : Nat) :
    ∀ (l : List TexUnit), (l.map TexUnit.uniform).Nodup → ∀ tu ∈ l,
      countOcc (texUnitWrite program tu) (l.map (texUnitWrite program)) = 1 := by
  intro l
  induction l with
  | nil => intro _ tu htu; simp at htu
  | cons a t ih =>
      intro hnd tu htu
      have hna : a.uniform ∉ t.map TexUnit.uniform ∧
          (t.map TexUnit.uniform).Nodup := by
        simpa [List.nodup_cons] using hnd
      rw [List.map_cons, countOcc_cons]
      rcases List.mem_cons.mp htu with h | h
      · subst h
        have hz : countOcc (texUnitWrite program tu)
            (t.map (texUnitWrite program)) = 0 := by
          refine countOcc_eq_zero (fun y hy => ?_)
          obtain ⟨u, hu, hyu⟩ := List.mem_map.mp hy
          rw [← hyu]
          refine texUnitWrite_inj_name (fun hequ => ?_)
          exact hna.1 (hequ ▸ List.mem_map.mpr ⟨u, hu, rfl⟩)
        simp [hz]
      · have hne : texUnitWrite program a ≠ texUnitWrite program tu := by
          refine texUnitWrite_inj_name (fun heq => ?_)
          exact hna.1 (heq ▸ List.mem_map.mpr ⟨tu, h, rfl⟩)
        rw [if_neg hne, ih hna.2 tu h]

theorem annotateBound_writes_then_unbind (program : Nat) :
    ∀ (ws : List TexUnit) (b : Nat),
      annotateBound b (ws.map (texUnitWrite program) ++ [GLOp.useProgram 0])
        = (ws.map (texUnitWrite program)).map (fun op => (b, op))
            ++ [(0, GLOp.useProgram 0)] := by
  intro ws
  induction ws with
  | nil => intro b; rfl
  | cons u t ih => intro b; simp [texUnitWrite, annotateBound, ih b]

theorem boundAfter_append_unbind :
    ∀ (l : List GLOp) (b : Nat), boundAfter b (l ++ [GLOp.useProgram 0]) = 0 := by
  intro l
  induction l with
  | nil => intro b; rfl
  | cons op t ih => intro b; cases op <;> simp [boundAfter, ih]

/-- C4: `UtilShader::AssignTextureUnit`, given a program and (unit-index,
sampler-name) pairs with distinct sampler names, writes each sampler its
paired unit index exactly once, performs every write while the given
program is the bound program, and leaves program `0` bound when it
returns. -/
theorem C4_AssignTextureUnit_contract (program b0 : Nat) (u : TexUnit)
    (rest : List TexUnit)
    (hnd : ((u :: rest).map TexUnit.uniform).Nodup) :
    (∀ tu ∈ u :: rest,
        countOcc (texUnitWrite program tu)
          (AssignTextureUnit program u rest) = 1)
    ∧ (∀ pr ∈ annotateBound b0 (AssignTextureUnit program u rest),
        ∀ w, pr.2 = GLOp.write w → pr.1 = program)
    ∧ boundAfter b0 (AssignTextureUnit program u rest) = 0 := by
  have htrace : AssignTextureUnit program u rest
      = GLOp.useProgram program ::
          ((u :: rest).map (texUnitWrite program) ++ [GLOp.useProgram 0]) := by
    simp [AssignTextureUnit, AssignTextureUnit_Sub_eq_map]
  refine ⟨fun tu htu => ?_, fun pr hpr w hw => ?_, ?_⟩
  · rw [htrace, countOcc_cons, if_neg (by simp [texUnitWrite]),
      Nat.zero_add, countOcc_append]
    have hz : countOcc (texUnitWrite program tu) [GLOp.useProgram 0] = 0 :=
      countOcc_eq_zero (by simp [texUnitWrite])
    rw [hz, Nat.add_zero]
    exact countOcc_texUnitWrite_map program (u :: rest) hnd tu htu
  · rw [htrace] at hpr
    have hstep : annotateBound b0 (GLOp.useProgram program ::
        ((u :: rest).map (texUnitWrite program) ++ [GLOp.useProgram 0]))
      = (program, GLOp.useProgram program) ::
          annotateBound program
            ((u :: rest).map (texUnitWrite program) ++ [GLOp.useProgram 0]) := rfl
    rw [hstep,
      annotateBound_writes_then_unbind program (u :: rest) program] at hpr
    rcases List.mem_cons.mp hpr with h | h
    · rw [h] at hw; simp at hw
    · rcases List.mem_append.mp h with h2 | h2
      · obtain ⟨op, _, hop⟩ := List.mem_map.mp h2
        rw [← hop]
      · simp at h2
        rw [h2] at hw; simp at hw
  · rw [htrace]
    show boundAfter program _ = 0
    exact boundAfter_append_unbind _ program

/-- Witness for C4 at a concrete two-sampler assignment. -/
theorem C4_AssignTextureUnit_contract_witness :
    countOcc (texUnitWrite 5 ⟨1, "dtex"⟩)
        (AssignTextureUnit 5 ⟨0, "tex"⟩ [⟨1, "dtex"⟩]) = 1
    ∧ boundAfter 3 (AssignTextureUnit 5 ⟨0, "tex"⟩ [⟨1, "dtex"⟩]) = 0 := by
  have h := C4_AssignTextureUnit_contract 5 3 ⟨0, "tex"⟩ [⟨1, "dtex"⟩]
    (by decide)
  exact ⟨h.1 ⟨1, "dtex"⟩ (by simp), h.2.2⟩

/-- C9: `BubbleShader`, whose uniform locations were resolved at build time
for the declared name list `[ModelViewProjectionMatrix, tex, time,
transparency]`: `setUniforms` writes exactly the cached locations of those
declared names, in declaration order, the i-th argument going to the i-th
name's location, and every written location belongs to the Bubble
program. -/
theorem C9_BubbleShader_uniform_order (p mvp : Nat) (tu : Int)
    (time transparency : Nat) :
    (MeshShader.BubbleShader.setUniforms (MeshShader.BubbleShader.init p)
        mvp tu time transparency
      = [⟨⟨p, "ModelViewProjectionMatrix"⟩, .mat4 mvp⟩,
         ⟨⟨p, "tex"⟩, .int tu⟩,
         ⟨⟨p, "time"⟩, .flt time⟩,
         ⟨⟨p, "transparency"⟩, .flt transparency⟩])
    ∧ ((MeshShader.BubbleShader.setUniforms (MeshShader.BubbleShader.init p)
        mvp tu time transparency).map (fun w => w.loc.program)
      = [p, p, p, p]) :=
  ⟨rfl, rfl⟩

theorem write_name_not_camera {pp : Nat} {nm : String} {v : UniValue}
    (h : nm ∉ cameraUniformNames) :
    (UniWrite.mk (getUniformLocation pp nm) v).loc.name ∉ cameraUniformNames :=
  h

/-- C6: each `setUniforms` that checks the UBO workaround (`SkyboxShader`,
`ColoredLine`, `PointLightShader`): when the driver needs the workaround,
the call first pushes the camera matrices and screen size through
`bypassUBO` and only then sets its own uniforms; when the workaround is not
needed, no write touches any of the five camera uniform names. -/
theorem C6_bypassUBO_paths (d : Driver) (p q r mm : Nat) (tu : Int)
    (cr cg cb ca : Int) (tun tud : Int) :
    ((bypassUBO d p).map (fun w => w.loc.name) = cameraUniformNames)
    ∧ (d.needUBOWorkaround = true →
        (MeshShader.SkyboxShader.setUniforms d
            (MeshShader.SkyboxShader.init p) mm tu
          = bypassUBO d p ++
              [⟨getUniformLocation p ("ModelMatrix"), .mat4 mm⟩,
               ⟨getUniformLocation p ("tex"), .int tu⟩])
        ∧ (UtilShader.ColoredLine.setUniforms d
            (UtilShader.ColoredLine.init q) cr cg cb ca
          = bypassUBO d q ++
              [⟨getUniformLocation q ("color"), .ivec4 cr cg cb ca⟩,
               ⟨getUniformLocation q ("ModelMatrix"), .mat4 IdentityMatrix⟩])
        ∧ (LightShader.PointLightShader.setUniforms d
            (LightShader.PointLightShader.init r) tun tud
          = bypassUBO d r ++
              [⟨getUniformLocation r ("spec"), .flt 200⟩,
               ⟨getUniformLocation r ("ntex"), .int tun⟩,
               ⟨getUniformLocation r ("dtex"), .int tud⟩]))
    ∧ (d.needUBOWorkaround = false →
        (∀ w ∈ MeshShader.SkyboxShader.setUniforms d
            (MeshShader.SkyboxShader.init p) mm tu,
          w.loc.name ∉ cameraUniformNames)
        ∧ (∀ w ∈ UtilShader.ColoredLine.setUniforms d
            (UtilShader.ColoredLine.init q) cr cg cb ca,
          w.loc.name ∉ cameraUniformNames)
        ∧ (∀ w ∈ LightShader.PointLightShader.setUniforms d
            (LightShader.PointLightShader.init r) tun tud,
          w.loc.name ∉ cameraUniformNames)) := by
  refine ⟨rfl, fun hw => ?_, fun hw => ?_⟩
  · refine ⟨?_, ?_, ?_⟩ <;>
      simp [MeshShader.SkyboxShader.setUniforms, MeshShader.SkyboxShader.init,
        UtilShader.ColoredLine.setUniforms, UtilShader.ColoredLine.init,
        LightShader.PointLightShader.setUniforms,
        LightShader.PointLightShader.init, hw]
  · refine ⟨fun w hmem => ?_, fun w hmem => ?_, fun w hmem => ?_⟩
    · simp [MeshShader.SkyboxShader.setUniforms,
        MeshShader.SkyboxShader.init, hw] at hmem
      rcases hmem with h | h <;>
        (subst h; exact write_name_not_camera (by decide))
    · simp [UtilShader.ColoredLine.setUniforms,
        UtilShader.ColoredLine.init, hw] at hmem
      rcases hmem with h | h <;>
        (subst h; exact write_name_not_camera (by decide))
    · simp [LightShader.PointLightShader.setUniforms,
        LightShader.PointLightShader.init, hw] at hmem
      rcases hmem with h | h | h <;>
        (subst h; exact write_name_not_camera (by decide))

/-- Witness for C6 in both driver configurations. -/
theorem C6_bypassUBO_paths_witness :
    (MeshShader.SkyboxShader.setUniforms ⟨true, 10, 11, 12, 13, 800, 600⟩
        (MeshShader.SkyboxShader.init 7) 42 1
      = bypassUBO ⟨true, 10, 11, 12, 13, 800, 600⟩ 7 ++
          [⟨getUniformLocation 7 ("ModelMatrix"), .mat4 42⟩,
           ⟨getUniformLocation 7 ("tex"), .int 1⟩])
    ∧ (∀ w ∈ MeshShader.SkyboxShader.setUniforms
          ⟨false, 10, 11, 12, 13, 800, 600⟩
          (MeshShader.SkyboxShader.init 7) 42 1,
        w.loc.name ∉ cameraUniformNames) := by
  refine ⟨?_, ?_⟩
  · exact ((C6_bypassUBO_paths ⟨true, 10, 11, 12, 13, 800, 600⟩ 7 7 7 42 1
      0 0 0 0 0 0).2.1 rfl).1
  · exact ((C6_bypassUBO_paths ⟨false, 10, 11, 12, 13, 800, 600⟩ 7 7 7 42 1
      0 0 0 0 0 0).2.2 rfl).1

/-- C5 counterexample: on a driver reporting GLSL version 120 (below 150),
every shadow-variant constructor returns without building anything —
`Program` is never assigned — so no "alternate capability-appropriate build
path" is substituted. -/
theorem C5_no_alternate_path_counterexample :
    MeshShader.ShadowShader.construct ⟨120, true⟩ = none
    ∧ MeshShader.InstancedShadowShader.construct ⟨120, true⟩ = none
    ∧ MeshShader.RefShadowShader.construct ⟨120, true⟩ = none
    ∧ MeshShader.InstancedRefShadowShader.construct ⟨120, true⟩ = none
    ∧ MeshShader.GrassShadowShader.construct ⟨120, true⟩ = none
    ∧ MeshShader.InstancedGrassShadowShader.construct ⟨120, true⟩ = none
    ∧ ¬ ∃ stages, MeshShader.ShadowShader.construct ⟨120, true⟩
        = some stages := by
  refine ⟨rfl, rfl, rfl, rfl, rfl, rfl, ?_⟩
  rintro ⟨stages, h⟩
  exact Option.noConfusion h

/-- C5 (amended): every shadow-variant constructor queries the GLSL version
before any build attempt; at version at least 150 it builds the program
with a geometry stage exactly when the VS-layer extension is absent; below
150 it returns early without attempting any build (no alternate build path
is substituted). -/
theorem C5_shadow_capability_paths (c : Caps) :
    (c.glslVersion < 150 →
        MeshShader.ShadowShader.construct c = none
        ∧ MeshShader.InstancedShadowShader.construct c = none
        ∧ MeshShader.RefShadowShader.construct c = none
        ∧ MeshShader.InstancedRefShadowShader.construct c = none
        ∧ MeshShader.GrassShadowShader.construct c = none
        ∧ MeshShader.InstancedGrassShadowShader.construct c = none)
    ∧ (150 ≤ c.glslVersion →
        (∃ s, MeshShader.ShadowShader.construct c = some s
          ∧ hasGeometryStage s = !c.hasVSLayerExtension)
        ∧ (∃ s, MeshShader.InstancedShadowShader.construct c = some s
          ∧ hasGeometryStage s = !c.hasVSLayerExtension)
        ∧ (∃ s, MeshShader.RefShadowShader.construct c = some s
          ∧ hasGeometryStage s = !c.hasVSLayerExtension)
        ∧ (∃ s, MeshShader.InstancedRefShadowShader.construct c = some s
          ∧ hasGeometryStage s = !c.hasVSLayerExtension)
        ∧ (∃ s, MeshShader.GrassShadowShader.construct c = some s
          ∧ hasGeometryStage s = !c.hasVSLayerExtension)
        ∧ (∃ s, MeshShader.InstancedGrassShadowShader.construct c = some s
          ∧ hasGeometryStage s = !c.hasVSLayerExtension)) := by
  constructor
  · intro hlt
    refine ⟨?_, ?_, ?_, ?_, ?_, ?_⟩ <;>
      simp [MeshShader.ShadowShader.construct,
        MeshShader.InstancedShadowShader.construct,
        MeshShader.RefShadowShader.construct,
        MeshShader.InstancedRefShadowShader.construct,
        MeshShader.GrassShadowShader.construct,
        MeshShader.InstancedGrassShadowShader.construct, hlt]
  · intro hge
    have hlt : ¬ c.glslVersion < 150 := Nat.not_lt.mpr hge
    cases hb : c.hasVSLayerExtension <;>
      refine ⟨?_, ?_, ?_, ?_, ?_, ?_⟩ <;>
      (simp only [MeshShader.ShadowShader.construct,
         MeshShader.InstancedShadowShader.construct,
         MeshShader.RefShadowShader.construct,
         MeshShader.InstancedRefShadowShader.construct,
         MeshShader.GrassShadowShader.construct,
         MeshShader.InstancedGrassShadowShader.construct]
       rw [if_neg hlt]
       simp only [hb, Bool.false_eq_true, if_false, if_true,
         Bool.not_false, Bool.not_true]
       exact ⟨_, rfl, by decide⟩)

/-- Witness for C5 (amended): concrete capability configurations on both
sides of the version threshold and of the VS-layer extension. -/
theorem C5_shadow_capability_paths_witness :
    MeshShader.GrassShadowShader.construct ⟨100, false⟩ = none
    ∧ (∃ s, MeshShader.ShadowShader.construct ⟨150, true⟩ = some s
        ∧ hasGeometryStage s = false)
    ∧ (∃ s, MeshShader.ShadowShader.construct ⟨150, false⟩ = some s
        ∧ hasGeometryStage s = true) := by
  refine ⟨((C5_shadow_capability_paths ⟨100, false⟩).1 (by decide)).2.2.2.2.1,
    ?_, ?_⟩
  · exact ((C5_shadow_capability_paths ⟨150, true⟩).2 (by decide)).1
  · exact ((C5_shadow_capability_paths ⟨150, false⟩).2 (by decide)).1

/-- C3: every shader program constructed in `shaders.cpp` that retrieves
the uniform block index of `"MatrixesData"` binds that block to binding
point 0 (the catalogue holds one entry per `glGetUniformBlockIndex` call
site, 39 in total), so all camera-state-consuming programs share the single
fixed binding slot of the view/projection-matrix uniform buffer. -/
theorem C3_matrixes_data_bound_to_zero :
    matrixesDataBindingSites.length = 39
    ∧ ∀ site ∈ matrixesDataBindingSites,
        site.block = "MatrixesData"
        ∧ site.point = matrixesDataBindingPoint := by
  exact ⟨rfl, by decide⟩

end STKShaders
